import Mathlib

/-!
Verification development for the `nest` Go client library
(thermostat/structure REST client with a one-shot 307 redirect retry,
a collection GET, and a line-oriented event-stream reader).

The definitions below shallowly embed the two source files
(`structure.go` and the unnamed thermostat file).  HTTP transport is
modelled by an oracle `net : Nat → DoResult` handing the program the
outcome of its n-th `client.Do` call; `Response.reqScheme`/`reqHost`
stand for the components of Go's `resp.Request.URL` (the URL of the
final request that produced the response).  Go's `float32` temperatures
are modelled as rationals and `time.Time` values as integers (instants
on a linear order); machine-word overflow plays no role in this code.

The repository's types file (`Client`, `Thermostat`, `Structure`,
`APIError`, the mode constants, `parseStreamData`, `setRedirectURL`)
is not among the given sources; those definitions are modelled from the
spec and are marked as such in their doc comments.
-/

namespace Nest

/-- Modelled from the spec: the `Client` record from the missing types
file: API base URL, possibly-updated redirect base URL (initially
empty), and the authentication token. -/
structure Client where
  apiURL : String := ""
  redirectURL : String := ""
  token : String := ""
  deriving DecidableEq

/-- Modelled from the spec: a thermostat resource: device ID plus a
back-reference to the owning client (`none` models Go's nil pointer). -/
structure Thermostat where
  deviceID : String := ""
  client : Option Client := none
  deriving DecidableEq

/-- Modelled from the spec: a structure ("home") resource: structure ID,
away state, and the client back-reference (`none` models Go's nil
pointer).  Only the setter-relevant fields are modelled. -/
structure Structure where
  structureID : String := ""
  away : String := ""
  client : Option Client := none
  deriving DecidableEq

/-- Modelled from the spec: the uniform error value: machine-readable
kind (`error`), human description, and the optional HTTP status
line/code attached when a response was received.  Field defaults are
Go's zero values. -/
structure APIError where
  error : String := ""
  description : String := ""
  status : String := ""
  statusCode : Nat := 0
  deriving DecidableEq

/-- A JSON value, the codomain of the JSON parser that models
`encoding/json` decoding of response bodies and stream payloads. -/
inductive JValue where
  | null
  | bool (b : Bool)
  | num (q : ℚ)
  | str (s : String)
  | arr (elems : List JValue)
  | obj (fields : List (String × JValue))

/-! ## JSON parsing (model of `encoding/json` unmarshalling) -/

/-- Skip JSON insignificant whitespace. -/
def skipWs : List Char → List Char
  | [] => []
  | c :: cs => if c = ' ' ∨ c = '\n' ∨ c = '\t' ∨ c = '\r' then skipWs cs else c :: cs

/-- Value of a hexadecimal digit. -/
def hexVal (c : Char) : Option Nat :=
  if '0' ≤ c ∧ c ≤ '9' then some (c.toNat - '0'.toNat)
  else if 'a' ≤ c ∧ c ≤ 'f' then some (c.toNat - 'a'.toNat + 10)
  else if 'A' ≤ c ∧ c ≤ 'F' then some (c.toNat - 'A'.toNat + 10)
  else none

/-- Parse the remainder of a JSON string literal (the opening quote
already consumed), returning its characters and the rest of the
input. -/
def parseStrChars : List Char → Option (List Char × List Char)
  | [] => none
  | '"' :: rest => some ([], rest)
  | '\\' :: '"' :: rest => (parseStrChars rest).map fun p => ('"' :: p.1, p.2)
  | '\\' :: '\\' :: rest => (parseStrChars rest).map fun p => ('\\' :: p.1, p.2)
  | '\\' :: '/' :: rest => (parseStrChars rest).map fun p => ('/' :: p.1, p.2)
  | '\\' :: 'n' :: rest => (parseStrChars rest).map fun p => ('\n' :: p.1, p.2)
  | '\\' :: 't' :: rest => (parseStrChars rest).map fun p => ('\t' :: p.1, p.2)
  | '\\' :: 'r' :: rest => (parseStrChars rest).map fun p => ('\r' :: p.1, p.2)
  | '\\' :: 'b' :: rest => (parseStrChars rest).map fun p => (Char.ofNat 8 :: p.1, p.2)
  | '\\' :: 'f' :: rest => (parseStrChars rest).map fun p => (Char.ofNat 12 :: p.1, p.2)
  | '\\' :: 'u' :: a :: b :: c :: d :: rest =>
    match hexVal a, hexVal b, hexVal c, hexVal d with
    | some x, some y, some z, some w =>
      (parseStrChars rest).map fun p => (Char.ofNat (((x * 16 + y) * 16 + z) * 16 + w) :: p.1, p.2)
    | _, _, _, _ => none
  | '\\' :: _ => none
  | c :: rest => (parseStrChars rest).map fun p => (c :: p.1, p.2)

/-- Accumulate a decimal value over a digit list. -/
def digitsValAux (acc : Nat) : List Char → Nat
  | [] => acc
  | c :: cs => digitsValAux (acc * 10 + (c.toNat - '0'.toNat)) cs

/-- Split a leading run of decimal digits off the input. -/
def takeDigits : List Char → List Char × List Char
  | [] => ([], [])
  | c :: cs =>
    if '0' ≤ c ∧ c ≤ '9' then
      let p := takeDigits cs
      (c :: p.1, p.2)
    else ([], c :: cs)

/-- Parse an optional exponent part (after `e`/`E`). -/
def parseExpDigits (cs : List Char) : Option (Int × List Char) :=
  match cs with
  | '+' :: rest =>
    let p := takeDigits rest
    if p.1 = [] then none else some ((digitsValAux 0 p.1 : Int), p.2)
  | '-' :: rest =>
    let p := takeDigits rest
    if p.1 = [] then none else some (-(digitsValAux 0 p.1 : Int), p.2)
  | _ =>
    let p := takeDigits cs
    if p.1 = [] then none else some ((digitsValAux 0 p.1 : Int), p.2)

/-- Parse a JSON number into a rational. -/
def parseNum (cs : List Char) : Option (JValue × List Char) :=
  let sgn : ℚ × List Char := match cs with
    | '-' :: rest => (-1, rest)
    | _ => (1, cs)
  let ip := takeDigits sgn.2
  if ip.1 = [] then none
  else
    let intPart : ℚ := (digitsValAux 0 ip.1 : ℚ)
    let fr : Option (ℚ × List Char) := match ip.2 with
      | '.' :: rest =>
        let fp := takeDigits rest
        if fp.1 = [] then none
        else some ((digitsValAux 0 fp.1 : ℚ) / ((10 : ℚ) ^ fp.1.length), fp.2)
      | _ => some (0, ip.2)
    match fr with
    | none => none
    | some (fracPart, cs2) =>
      match cs2 with
      | 'e' :: rest =>
        match parseExpDigits rest with
        | none => none
        | some (e, cs3) => some (.num (sgn.1 * (intPart + fracPart) * (10 : ℚ) ^ e), cs3)
      | 'E' :: rest =>
        match parseExpDigits rest with
        | none => none
        | some (e, cs3) => some (.num (sgn.1 * (intPart + fracPart) * (10 : ℚ) ^ e), cs3)
      | _ => some (.num (sgn.1 * (intPart + fracPart)), cs2)

mutual

/-- Parse one JSON value (fuel-bounded recursive descent). -/
def parseVal : Nat → List Char → Option (JValue × List Char)
  | 0, _ => none
  | f + 1, cs =>
    match skipWs cs with
    | [] => none
    | '{' :: rest =>
      (match skipWs rest with
       | '}' :: r2 => some (.obj [], r2)
       | r2 => (parseMembers f r2).map fun p => (.obj p.1, p.2))
    | '[' :: rest =>
      (match skipWs rest with
       | ']' :: r2 => some (.arr [], r2)
       | r2 => (parseElems f r2).map fun p => (.arr p.1, p.2))
    | '"' :: rest => (parseStrChars rest).map fun p => (.str (String.mk p.1), p.2)
    | 'n' :: 'u' :: 'l' :: 'l' :: rest => some (.null, rest)
    | 't' :: 'r' :: 'u' :: 'e' :: rest => some (.bool true, rest)
    | 'f' :: 'a' :: 'l' :: 's' :: 'e' :: rest => some (.bool false, rest)
    | other => parseNum other

/-- Parse the members of a JSON object, consuming the closing brace. -/
def parseMembers : Nat → List Char → Option (List (String × JValue) × List Char)
  | 0, _ => none
  | f + 1, cs =>
    match skipWs cs with
    | '"' :: rest => do
      let (k, r1) ← parseStrChars rest
      match skipWs r1 with
      | ':' :: r2 => do
        let (v, r3) ← parseVal f r2
        match skipWs r3 with
        | ',' :: r4 => do
          let (ms, r5) ← parseMembers f r4
          pure ((String.mk k, v) :: ms, r5)
        | '}' :: r4 => pure ([(String.mk k, v)], r4)
        | _ => none
      | _ => none
    | _ => none

/-- Parse the elements of a JSON array, consuming the closing bracket. -/
def parseElems : Nat → List Char → Option (List JValue × List Char)
  | 0, _ => none
  | f + 1, cs => do
    let (v, r1) ← parseVal f cs
    match skipWs r1 with
    | ',' :: r2 => do
      let (vs, r3) ← parseElems f r2
      pure (v :: vs, r3)
    | ']' :: r2 => pure ([v], r2)
    | _ => none

end

/-- Parse a complete JSON document; trailing non-whitespace input is an
error, as in `encoding/json.Unmarshal`. -/
def parseJson (s : String) : Option JValue :=
  match parseVal (s.data.length + 1) s.data with
  | some (v, rest) => if skipWs rest = [] then some v else none
  | none => none

/-- Look a key up in a decoded JSON object. -/
def jField (fields : List (String × JValue)) (k : String) : Option JValue :=
  match fields.find? (fun p => p.1 == k) with
  | some p => some p.2
  | none => none

/-- The string content of an optional JSON value, defaulting to Go's
zero string on a missing or non-string value. -/
def jStr : Option JValue → String
  | some (.str s) => s
  | _ => ""

/-! ## Typed unmarshalling -/

/-- Model of `json.Unmarshal(body, apiError)` into a zero-valued
`APIError`: on a non-object document or a decode failure the record is
left at Go's zero values.  The json field tags are modelled from the
spec's Error record (kind and human description). -/
def unmarshalAPIError (body : String) : APIError :=
  match parseJson body with
  | some (.obj fs) => { error := jStr (jField fs "error"), description := jStr (jField fs "description") }
  | _ => {}

/-- Modelled from the spec: decoding one JSON value as a `Structure`
(fields mirror away-state and structure metadata; the exact field set
lives in the missing types file).  Non-object values leave the record
at its zero values, and the client back-reference is not set by
decoding. -/
def unmarshalStructure : JValue → Structure
  | .obj fs => { structureID := jStr (jField fs "structure_id"), away := jStr (jField fs "away") }
  | _ => {}

/-- Model of `json.Unmarshal(body, &structures)` into a fresh
`map[string]*Structure`: a decode failure leaves the map empty. -/
def unmarshalStructuresMap (body : String) : List (String × Structure) :=
  match parseJson body with
  | some (.obj fs) => fs.map fun p => (p.1, unmarshalStructure p.2)
  | _ => []

/-- Modelled from the spec: a decoded streaming record with an optional
mapping from structure ID to `Structure` (json field `data`). -/
structure StructuresEvent where
  data : Option (List (String × Structure)) := none

/-- Model of `json.Unmarshal([]byte(value), structuresEvent)`: the
`data` mapping stays nil (`none`) when the payload is not a JSON object
carrying an object under `data` — in particular on a decode failure or
a null mapping. -/
def unmarshalStructuresEvent (s : String) : StructuresEvent :=
  match parseJson s with
  | some (.obj fs) =>
    match jField fs "data" with
    | some (.obj gs) => { data := some (gs.map fun p => (p.1, unmarshalStructure p.2)) }
    | _ => { data := none }
  | _ => { data := none }

/-- Modelled from the spec: decoding one JSON document as a
`Thermostat` (the PUT success path decodes the 200 body into the
resource type and discards it). -/
def unmarshalThermostat (body : String) : Thermostat :=
  match parseJson body with
  | some (.obj fs) => { deviceID := jStr (jField fs "device_id") }
  | _ => {}

/-! ## HTTP transport model -/

/-- An HTTP response as observed by this code: status code and status
line, the scheme and host of `resp.Request.URL` (the final request that
produced the response), the bytes delivered by reading the body, and an
optional body-read error (`ioutil.ReadAll`'s error return). -/
structure Response where
  statusCode : Nat := 0
  status : String := ""
  reqScheme : String := ""
  reqHost : String := ""
  body : String := ""
  bodyReadErr : Option String := none
  deriving DecidableEq

/-- The outcome of one `client.Do` call: a transport failure (Go
returns a nil response and a non-nil error) or a response. -/
inductive DoResult where
  | fail (msg : String)
  | ok (resp : Response)
  deriving DecidableEq

/-- A recorded outbound request: method, URL, marshalled JSON body
(object fields in the order `json.Marshal` emits them — sorted keys for
Go maps, declaration order for structs), and the content type set on
it. -/
structure Request where
  method : String
  url : String
  body : List (String × JValue)
  contentType : String := ""

/-- The observable outcome of one PUT primitive call: the returned
error, the thermostat/structure's client after the call (its
`RedirectURL` may have been mutated), and the requests issued in
order. -/
structure PutResult where
  apiError : Option APIError := none
  client : Option Client := none
  requests : List Request := []

/-- The result of a setter: `nilClient` models Go dereferencing a nil
`Client` pointer (a runtime panic); otherwise the `PutResult`. -/
inductive SetOutcome where
  | nilClient
  | done (r : PutResult)

/-- The requests issued by a setter call. -/
def SetOutcome.requests : SetOutcome → List Request
  | .nilClient => []
  | .done r => r.requests

/-- The error returned by a setter call. -/
def SetOutcome.apiError : SetOutcome → Option APIError
  | .nilClient => none
  | .done r => r.apiError

/-- The client as left behind by a setter call. -/
def SetOutcome.clientAfter : SetOutcome → Option Client
  | .nilClient => none
  | .done r => r.client

/-- Embeds `generateAPIError` (thermostat source file): an `api_error`
with the given description. -/
def generateAPIError (description : String) : APIError :=
  { error := "api_error", description := description }

/-! ## PUT-and-retry primitives -/

/-- The thermostat PUT target URL, as concatenated in `setThermostat`. -/
def thermostatURL (c : Client) (deviceID : String) : String :=
  c.redirectURL ++ "/devices/thermostats/" ++ deviceID ++ "?auth=" ++ c.token

/-- The structure PUT target URL, as concatenated in `setStructure`. -/
def structureURL (c : Client) (structureID : String) : String :=
  c.redirectURL ++ "/structures/" ++ structureID ++ "?auth=" ++ c.token

/-- A PUT request with JSON content type, as built by the two PUT
primitives. -/
def putRequest (url : String) (body : List (String × JValue)) : Request :=
  { method := "PUT", url := url, body := body, contentType := "application/json" }

/-- Embeds the tail of `setThermostat` after the redirect handling:
read the body (the read error is ignored), on 200 decode the body into
a `Thermostat` and discard it returning no error, otherwise decode the
body as an `APIError`, re-derive it by kind through `generateAPIError`
and attach the HTTP status line and code. -/
def finishThermostatPut (resp : Response) : Option APIError :=
  if resp.statusCode = 200 then
    let _t := unmarshalThermostat resp.body
    none
  else
    some { generateAPIError (unmarshalAPIError resp.body).error with
           status := resp.status, statusCode := resp.statusCode }

/-- Embeds the tail of `setStructure`, identical to the thermostat tail
except that the 200 body is decoded into a `Structure` (and likewise
discarded). -/
def finishStructurePut (resp : Response) : Option APIError :=
  if resp.statusCode = 200 then
    let _s := unmarshalStructure (match parseJson resp.body with | some v => v | none => .null)
    none
  else
    some { generateAPIError (unmarshalAPIError resp.body).error with
           status := resp.status, statusCode := resp.statusCode }

/-- Embeds `setThermostat`: build the PUT against the client's
redirect/base URL; a transport failure is an `http_error`; a 307
response updates the client's `RedirectURL` to the scheme+host of the
response's final request URL, rebuilds the URL and reissues the PUT
once, surfacing a retry transport failure as `http_error`; the
(possibly retried) response is finished by `finishThermostatPut`. -/
def setThermostat (t : Thermostat) (body : List (String × JValue)) (net : Nat → DoResult) : SetOutcome :=
  match t.client with
  | none => .nilClient
  | some c =>
    let req := putRequest (thermostatURL c t.deviceID) body
    match net 0 with
    | .fail msg => .done { apiError := some { error := "http_error", description := msg },
                           client := some c, requests := [req] }
    | .ok resp =>
      if resp.statusCode = 307 then
        let c2 : Client := { c with redirectURL := resp.reqScheme ++ "://" ++ resp.reqHost }
        let req2 := putRequest (thermostatURL c2 t.deviceID) body
        match net 1 with
        | .fail msg => .done { apiError := some { error := "http_error", description := msg },
                               client := some c2, requests := [req, req2] }
        | .ok resp2 => .done { apiError := finishThermostatPut resp2,
                               client := some c2, requests := [req, req2] }
      else
        .done { apiError := finishThermostatPut resp, client := some c, requests := [req] }

/-- Embeds `setStructure`, the structure twin of `setThermostat`. -/
def setStructure (s : Structure) (body : List (String × JValue)) (net : Nat → DoResult) : SetOutcome :=
  match s.client with
  | none => .nilClient
  | some c =>
    let req := putRequest (structureURL c s.structureID) body
    match net 0 with
    | .fail msg => .done { apiError := some { error := "http_error", description := msg },
                           client := some c, requests := [req] }
    | .ok resp =>
      if resp.statusCode = 307 then
        let c2 : Client := { c with redirectURL := resp.reqScheme ++ "://" ++ resp.reqHost }
        let req2 := putRequest (structureURL c2 s.structureID) body
        match net 1 with
        | .fail msg => .done { apiError := some { error := "http_error", description := msg },
                               client := some c2, requests := [req, req2] }
        | .ok resp2 => .done { apiError := finishStructurePut resp2,
                               client := some c2, requests := [req, req2] }
      else
        .done { apiError := finishStructurePut resp, client := some c, requests := [req] }

/-! ## Field setters -/

/-- Modelled from the spec: the HVAC mode codes from the missing types
file are four distinct integer constants. -/
def Cool : Int := 1

/-- Modelled from the spec: HVAC mode code. -/
def Heat : Int := 2

/-- Modelled from the spec: HVAC mode code. -/
def HeatCool : Int := 3

/-- Modelled from the spec: HVAC mode code. -/
def Off : Int := 4

/-- Embeds `SetHvacMode`: the switch over the four recognized mode
codes builds the one-key body, any other code fails with
`generateAPIError` and no request. -/
def SetHvacMode (t : Thermostat) (mode : Int) (net : Nat → DoResult) : SetOutcome :=
  if mode = Cool then setThermostat t [("hvac_mode", .str "cool")] net
  else if mode = Heat then setThermostat t [("hvac_mode", .str "heat")] net
  else if mode = HeatCool then setThermostat t [("hvac_mode", .str "heat-cool")] net
  else if mode = Off then setThermostat t [("hvac_mode", .str "off")] net
  else .done { apiError := some (generateAPIError "Invalid HvacMode requested - must be cool, heat, heat-cool or off"),
               client := t.client, requests := [] }

/-- Embeds `SetTargetTempC` (Go `float32` modelled as a rational). -/
def SetTargetTempC (t : Thermostat) (temp : ℚ) (net : Nat → DoResult) : SetOutcome :=
  if temp < 9 ∨ temp > 32 then
    .done { apiError := some (generateAPIError "Temperature must be between 9 and 32 Celcius"),
            client := t.client, requests := [] }
  else setThermostat t [("target_temperature_c", .num temp)] net

/-- Embeds `SetTargetTempF`. -/
def SetTargetTempF (t : Thermostat) (temp : Int) (net : Nat → DoResult) : SetOutcome :=
  if temp < 50 ∨ temp > 90 then
    .done { apiError := some (generateAPIError "Temperature must be between 50 and 90 Farenheit"),
            client := t.client, requests := [] }
  else setThermostat t [("target_temperature_f", .num (temp : ℚ))] net

/-- Embeds `SetTargetTempHighLowC` (Go `float32` modelled as a
rational; `json.Marshal` emits the two map keys in sorted order, high
before low). -/
def SetTargetTempHighLowC (t : Thermostat) (high low : ℚ) (net : Nat → DoResult) : SetOutcome :=
  if high < low then
    .done { apiError := some (generateAPIError "The high temperature must be greater than the low temperature"),
            client := t.client, requests := [] }
  else setThermostat t [("target_temperature_high_c", .num high), ("target_temperature_low_c", .num low)] net

/-- Embeds `SetTargetTempHighLowF`. -/
def SetTargetTempHighLowF (t : Thermostat) (high low : Int) (net : Nat → DoResult) : SetOutcome :=
  if high < low then
    .done { apiError := some (generateAPIError "The high temperature must be greater than the low temperature"),
            client := t.client, requests := [] }
  else setThermostat t [("target_temperature_high_f", .num (high : ℚ)), ("target_temperature_low_f", .num (low : ℚ))] net

/-! ## ETA -/

/-- Embeds `checkTimes`: `time.Time` values modelled as integer
instants, `Before` as strict order. -/
def checkTimes (now tBegin tEnd : Int) : Option APIError :=
  if tBegin < now then
    some { error := "eta_error", description := "The begin time must be greater than the time now" }
  else if tEnd < tBegin then
    some { error := "eta_error", description := "The end time must be greater than the begin time" }
  else none

/-- The marshalled ETA body; the json field tags are modelled from the
spec's ETA endpoint (struct fields in declaration order, timestamps
abstracted to integers). -/
def etaBody (tripID : String) (tBegin tEnd : Int) : List (String × JValue) :=
  [("trip_id", .str tripID),
   ("estimated_arrival_window_begin", .num (tBegin : ℚ)),
   ("estimated_arrival_window_end", .num (tEnd : ℚ))]

/-- Embeds `SetETA`: validate the times first (before any network
traffic), then issue a single PUT (no content type, no redirect retry)
to the ETA endpoint; non-200 responses are re-derived through
`generateAPIError` with the status attached. -/
def SetETA (s : Structure) (tripID : String) (now tBegin tEnd : Int) (net : Nat → DoResult) : SetOutcome :=
  match checkTimes now tBegin tEnd with
  | some e => .done { apiError := some e, client := s.client, requests := [] }
  | none =>
    match s.client with
    | none => .nilClient
    | some c =>
      let req : Request :=
        { method := "PUT",
          url := c.redirectURL ++ "/structures/" ++ s.structureID ++ "/eta.json?auth=" ++ c.token,
          body := etaBody tripID tBegin tEnd }
      match net 0 with
      | .fail msg => .done { apiError := some { error := "http_error", description := msg },
                             client := some c, requests := [req] }
      | .ok resp =>
        if resp.statusCode ≠ 200 then
          .done { apiError := some { generateAPIError (unmarshalAPIError resp.body).error with
                                     status := resp.status, statusCode := resp.statusCode },
                  client := some c, requests := [req] }
        else .done { apiError := none, client := some c, requests := [req] }

/-! ## Collection fetch and stream reader -/

/-- Modelled from the spec: the action constants from the missing types
file selecting whether the structures GET asks for streaming. -/
def NoStream : Int := 0

/-- Modelled from the spec: action constant requesting the
`text/event-stream` Accept header. -/
def Stream : Int := 1

/-- The outcome of `getStructures`: `crash` models Go dereferencing the
nil response (`resp.Request.URL`) after a failed `Do` on the first-call
path — a runtime panic; otherwise the error-or-response pair together
with the client (whose `RedirectURL` the first-call path caches from
the response's request URL, even on success). -/
inductive GetResult where
  | crash
  | failure (msg : String) (c : Client)
  | success (resp : Response) (c : Client)

/-- Embeds `getStructures`: with no cached redirect URL, issue the GET
against the API base URL and cache the response's request-URL
scheme+host — dereferencing the response before checking the error, so
a transport failure on this path crashes; with a cached redirect URL,
issue the GET against it (the `action` argument only selects the
`Accept: text/event-stream` header, which is not otherwise observable
in this model) and hand back the outcome unchanged. -/
def getStructures (c : Client) (_action : Int) (conn : DoResult) : GetResult :=
  if c.redirectURL = "" then
    match conn with
    | .fail _ => .crash
    | .ok resp => .success resp { c with redirectURL := resp.reqScheme ++ "://" ++ resp.reqHost }
  else
    match conn with
    | .fail msg => .failure msg c
    | .ok resp => .success resp c

/-- One delivery to the streaming callback: `failure msg` is
`callback(nil, err)`, `event m` is `callback(structures, nil)`. -/
inductive CallbackCall where
  | failure (msg : String)
  | event (structures : List (String × Structure))
  deriving DecidableEq

/-- Embeds `associateClientToStructures`: set every entry's client
back-reference to the producing client. -/
def associateClientToStructures (c : Client) (m : List (String × Structure)) : List (String × Structure) :=
  m.map fun p => (p.1, { p.2 with client := some c })

/-- Modelled from the spec: `parseStreamData` (missing from src/)
extracts the JSON payload from a line carrying the event-stream
`data:` field and returns the empty string for every other line. -/
def parseStreamData (line : String) : String :=
  match line.data with
  | 'd' :: 'a' :: 't' :: 'a' :: ':' :: ' ' :: rest => String.mk rest
  | _ => ""

/-- The loop body of `watchStructuresStream` for one line: extract the
payload, and when it is non-empty decode it as a `StructuresEvent`; a
non-nil mapping is associated to the client and delivered, everything
else produces no call. -/
def watchLineEvent (c : Client) (line : String) : Option CallbackCall :=
  let value := parseStreamData line
  if value = "" then none
  else
    match (unmarshalStructuresEvent value).data with
    | some m => some (.event (associateClientToStructures c m))
    | none => none

/-- The calls made by the watch loop over the lines it reads before the
read error that ends the connection. -/
def watchLines (c : Client) (lines : List String) : List CallbackCall :=
  lines.filterMap (watchLineEvent c)

/-- Model of `bufio.Reader.ReadString('\n')` driven to the end of the
body: the newline-terminated lines, in order; a trailing fragment
without a newline is returned together with the read error and is
discarded by the loop, which returns on any read error. -/
def readLinesAux (acc : List Char) : List Char → List String
  | [] => []
  | c :: rest =>
    if c = '\n' then String.mk (acc ++ ['\n']) :: readLinesAux [] rest
    else readLinesAux (acc ++ [c]) rest

/-- The newline-terminated lines of a response body. -/
def readLines (body : String) : List String :=
  readLinesAux [] body.data

/-- Embeds `watchStructuresStream`: read lines until the read error,
handling each line with `watchLineEvent`. -/
def watchStructuresStream (c : Client) (resp : Response) : List CallbackCall :=
  watchLines c (readLines resp.body)

/-- Embeds `streamStructures`: one iteration of the outer loop — open
the stream; on a connection error deliver `callback(nil, err)` and
return; otherwise watch the stream until its read error.  `none`
models the `getStructures` crash. -/
def streamStructures (c : Client) (conn : DoResult) : Option (Client × List CallbackCall) :=
  match getStructures c Stream conn with
  | .crash => none
  | .failure msg c2 => some (c2, [.failure msg])
  | .success resp c2 => some (c2, watchStructuresStream c2 resp)

/-- Modelled from the spec: `setRedirectURL` (missing from src/) primes
the client's redirect base URL with the same caching logic as the
collection fetch's first call: on a response, cache the scheme+host of
its request URL. -/
def setRedirectURL (c : Client) (conn : DoResult) : Client :=
  match conn with
  | .ok resp => { c with redirectURL := resp.reqScheme ++ "://" ++ resp.reqHost }
  | .fail _ => c

/-- The first `n` iterations of the outer driving loop of
`StructuresStream`, the oracle `net` supplying iteration `i`'s
connection outcome; `none` models a crash inside `getStructures`. -/
def structuresStreamRun (net : Nat → DoResult) (c : Client) : Nat → Option (Client × List CallbackCall)
  | 0 => some (c, [])
  | n + 1 =>
    match structuresStreamRun net c n with
    | none => none
    | some (c2, calls) =>
      match streamStructures c2 (net n) with
      | none => none
      | some (c3, more) => some (c3, calls ++ more)

/-- Embeds `StructuresStream`: prime the redirect URL, then drive the
reconnect loop (truncated to its first `n` iterations — the Go loop
has no exit). -/
def StructuresStream (c : Client) (prime : DoResult) (net : Nat → DoResult) (n : Nat) :
    Option (Client × List CallbackCall) :=
  structuresStreamRun net (setRedirectURL c prime) n

/-- The outcome of `Structures()`: `crashed` models the `getStructures`
nil-response dereference; otherwise the returned map (as an association
list), the returned error, and the client after the call. -/
inductive StructuresOutcome where
  | crashed
  | result (structures : Option (List (String × Structure))) (err : Option APIError) (c : Client)
  deriving DecidableEq

/-- Embeds `Structures`: fetch the collection; a transport failure is a
`devices_error` carrying the underlying error text, a body-read failure
a `body_read_error`; a non-200 status returns the body decoded as an
`APIError` as-is; on 200 the body is decoded into the map (the decode
error is discarded) and every entry is associated to the client. -/
def Structures (c : Client) (conn : DoResult) : StructuresOutcome :=
  match getStructures c NoStream conn with
  | .crash => .crashed
  | .failure msg c2 => .result none (some { error := "devices_error", description := msg }) c2
  | .success resp c2 =>
    match resp.bodyReadErr with
    | some msg => .result none (some { error := "body_read_error", description := msg }) c2
    | none =>
      if resp.statusCode ≠ 200 then
        .result none (some (unmarshalAPIError resp.body)) c2
      else
        let structures := unmarshalStructuresMap resp.body
        .result (some (associateClientToStructures c2 structures)) none c2

/-! ## Concrete inputs used by the witnesses -/

/-- A demo client with a cached redirect URL. -/
def cDemo : Client :=
  { apiURL := "https://api.nest.example", redirectURL := "https://cache.nest.example", token := "tok" }

/-- A demo thermostat owned by `cDemo`. -/
def tDemo : Thermostat := { deviceID := "d1", client := some cDemo }

/-- A demo structure owned by `cDemo`. -/
def sDemo : Structure := { structureID := "s1", client := some cDemo }

/-- A plain 200 response. -/
def respOk200 : Response :=
  { statusCode := 200, status := "200 OK", reqScheme := "https", reqHost := "nest.example", body := "\x7b\x7d" }

/-- A transport oracle that always answers 200. -/
def netOk200 : Nat → DoResult := fun _ => DoResult.ok respOk200

/-! ## Helper lemmas -/

/-- Every branch of `setThermostat` issues at least one request and
every issued request carries the marshalled body handed in. -/
theorem setThermostat_requests (t : Thermostat) (c : Client) (b : List (String × JValue))
    (net : Nat → DoResult) (hc : t.client = some c) :
    (setThermostat t b net).requests ≠ [] ∧
      ∀ r ∈ (setThermostat t b net).requests, r.body = b := by
  simp only [setThermostat, hc]
  cases net 0 with
  | fail msg => simp [SetOutcome.requests, putRequest]
  | ok resp =>
    by_cases h : resp.statusCode = 307
    · simp only [h, if_true, if_pos]
      cases net 1 with
      | fail m => simp [SetOutcome.requests, putRequest]
      | ok r2 => simp [SetOutcome.requests, putRequest]
    · simp [h, SetOutcome.requests, putRequest]

/-- Every branch of `SetETA` past validation issues exactly one
request, aimed at the ETA endpoint and carrying the ETA body. -/
theorem SetETA_request (s : Structure) (c : Client) (tripID : String)
    (now tBegin tEnd : Int) (net : Nat → DoResult) (hc : s.client = some c)
    (hv : checkTimes now tBegin tEnd = none) :
    (SetETA s tripID now tBegin tEnd net).requests =
      [{ method := "PUT",
         url := c.redirectURL ++ "/structures/" ++ s.structureID ++ "/eta.json?auth=" ++ c.token,
         body := etaBody tripID tBegin tEnd }] := by
  simp only [SetETA, hv, hc]
  cases net 0 with
  | fail msg => simp [SetOutcome.requests]
  | ok resp =>
    by_cases h : resp.statusCode = 200
    · simp [SetOutcome.requests, h]
    · simp [SetOutcome.requests, h]

/-! ## Claim theorems -/

/-- Claim C7: a mode outside the four recognized codes yields the
`api_error` with no network call, and each recognized code sends the
documented literal string under `hvac_mode`. -/
theorem claim7_hvac_mode (t : Thermostat) (c : Client) (mode : Int) (net : Nat → DoResult)
    (hc : t.client = some c) :
    (mode ≠ Cool → mode ≠ Heat → mode ≠ HeatCool → mode ≠ Off →
      (SetHvacMode t mode net).apiError =
        some (generateAPIError "Invalid HvacMode requested - must be cool, heat, heat-cool or off")
      ∧ (SetHvacMode t mode net).requests = [])
    ∧ ((SetHvacMode t Cool net).requests ≠ [] ∧
        ∀ r ∈ (SetHvacMode t Cool net).requests, r.body = [("hvac_mode", JValue.str "cool")])
    ∧ ((SetHvacMode t Heat net).requests ≠ [] ∧
        ∀ r ∈ (SetHvacMode t Heat net).requests, r.body = [("hvac_mode", JValue.str "heat")])
    ∧ ((SetHvacMode t HeatCool net).requests ≠ [] ∧
        ∀ r ∈ (SetHvacMode t HeatCool net).requests, r.body = [("hvac_mode", JValue.str "heat-cool")])
    ∧ ((SetHvacMode t Off net).requests ≠ [] ∧
        ∀ r ∈ (SetHvacMode t Off net).requests, r.body = [("hvac_mode", JValue.str "off")]) := by
  refine ⟨fun h1 h2 h3 h4 => ?_, ?_, ?_, ?_, ?_⟩
  · simp [SetHvacMode, h1, h2, h3, h4, SetOutcome.apiError, SetOutcome.requests]
  · simpa [SetHvacMode, Cool, Heat, HeatCool, Off] using
      setThermostat_requests t c [("hvac_mode", JValue.str "cool")] net hc
  · simpa [SetHvacMode, Cool, Heat, HeatCool, Off] using
      setThermostat_requests t c [("hvac_mode", JValue.str "heat")] net hc
  · simpa [SetHvacMode, Cool, Heat, HeatCool, Off] using
      setThermostat_requests t c [("hvac_mode", JValue.str "heat-cool")] net hc
  · simpa [SetHvacMode, Cool, Heat, HeatCool, Off] using
      setThermostat_requests t c [("hvac_mode", JValue.str "off")] net hc

/-- Claim C7 witness: `SetHvacMode(99)` returns the invalid-mode
`api_error` with zero requests, and `SetHvacMode(Cool)` sends
`hvac_mode: "cool"`. -/
theorem claim7_witness :
    ((SetHvacMode tDemo 99 netOk200).apiError =
        some (generateAPIError "Invalid HvacMode requested - must be cool, heat, heat-cool or off")
      ∧ (SetHvacMode tDemo 99 netOk200).requests = [])
    ∧ ∀ r ∈ (SetHvacMode tDemo Cool netOk200).requests, r.body = [("hvac_mode", JValue.str "cool")] := by
  have h := claim7_hvac_mode tDemo cDemo 99 netOk200 rfl
  exact ⟨h.1 (by decide) (by decide) (by decide) (by decide), h.2.1.2⟩

/-- Claim C8: Celsius targets outside [9, 32] and Fahrenheit targets
outside [50, 90] fail locally with the `api_error` and no request;
in-range targets send exactly the documented one-key body. -/
theorem claim8_target_temp (t : Thermostat) (c : Client) (net : Nat → DoResult)
    (tc : ℚ) (tf : Int) (hc : t.client = some c) :
    ((tc < 9 ∨ tc > 32) →
       (SetTargetTempC t tc net).apiError =
         some (generateAPIError "Temperature must be between 9 and 32 Celcius")
       ∧ (SetTargetTempC t tc net).requests = [])
    ∧ (9 ≤ tc → tc ≤ 32 →
       (SetTargetTempC t tc net).requests ≠ [] ∧
       ∀ r ∈ (SetTargetTempC t tc net).requests, r.body = [("target_temperature_c", JValue.num tc)])
    ∧ ((tf < 50 ∨ tf > 90) →
       (SetTargetTempF t tf net).apiError =
         some (generateAPIError "Temperature must be between 50 and 90 Farenheit")
       ∧ (SetTargetTempF t tf net).requests = [])
    ∧ (50 ≤ tf → tf ≤ 90 →
       (SetTargetTempF t tf net).requests ≠ [] ∧
       ∀ r ∈ (SetTargetTempF t tf net).requests, r.body = [("target_temperature_f", JValue.num (tf : ℚ))]) := by
  refine ⟨fun h => ?_, fun h9 h32 => ?_, fun h => ?_, fun h50 h90 => ?_⟩
  · simp [SetTargetTempC, h, SetOutcome.apiError, SetOutcome.requests]
  · have hno : ¬(tc < 9 ∨ tc > 32) := by
      push_neg
      exact ⟨h9, h32⟩
    simpa [SetTargetTempC, hno] using
      setThermostat_requests t c [("target_temperature_c", JValue.num tc)] net hc
  · simp [SetTargetTempF, h, SetOutcome.apiError, SetOutcome.requests]
  · have hno : ¬(tf < 50 ∨ tf > 90) := by
      push_neg
      exact ⟨h50, h90⟩
    simpa [SetTargetTempF, hno] using
      setThermostat_requests t c [("target_temperature_f", JValue.num (tf : ℚ))] net hc

/-- Claim C8 witness at temps 5 and 20 Celsius, 100 and 78
Fahrenheit. -/
theorem claim8_witness :
    (SetTargetTempC tDemo 5 netOk200).requests = []
    ∧ (∀ r ∈ (SetTargetTempC tDemo 20 netOk200).requests,
        r.body = [("target_temperature_c", JValue.num 20)])
    ∧ (SetTargetTempF tDemo 100 netOk200).requests = []
    ∧ ∀ r ∈ (SetTargetTempF tDemo 78 netOk200).requests,
        r.body = [("target_temperature_f", JValue.num ((78 : Int) : ℚ))] := by
  refine ⟨((claim8_target_temp tDemo cDemo netOk200 5 100 rfl).1 (by norm_num)).2,
          ((claim8_target_temp tDemo cDemo netOk200 20 78 rfl).2.1 (by norm_num) (by norm_num)).2,
          ((claim8_target_temp tDemo cDemo netOk200 5 100 rfl).2.2.1 (by norm_num)).2,
          ((claim8_target_temp tDemo cDemo netOk200 20 78 rfl).2.2.2 (by norm_num) (by norm_num)).2⟩

/-- Claim C9: high < low fails both high/low setters locally with the
`api_error` and no request; high ≥ low sends both unit-qualified keys. -/
theorem claim9_high_low (t : Thermostat) (c : Client) (net : Nat → DoResult)
    (hc qc : ℚ) (hf qf : Int) (hcl : t.client = some c) :
    (hc < qc →
       (SetTargetTempHighLowC t hc qc net).apiError =
         some (generateAPIError "The high temperature must be greater than the low temperature")
       ∧ (SetTargetTempHighLowC t hc qc net).requests = [])
    ∧ (qc ≤ hc →
       (SetTargetTempHighLowC t hc qc net).requests ≠ [] ∧
       ∀ r ∈ (SetTargetTempHighLowC t hc qc net).requests,
         r.body = [("target_temperature_high_c", JValue.num hc), ("target_temperature_low_c", JValue.num qc)])
    ∧ (hf < qf →
       (SetTargetTempHighLowF t hf qf net).apiError =
         some (generateAPIError "The high temperature must be greater than the low temperature")
       ∧ (SetTargetTempHighLowF t hf qf net).requests = [])
    ∧ (qf ≤ hf →
       (SetTargetTempHighLowF t hf qf net).requests ≠ [] ∧
       ∀ r ∈ (SetTargetTempHighLowF t hf qf net).requests,
         r.body = [("target_temperature_high_f", JValue.num (hf : ℚ)), ("target_temperature_low_f", JValue.num (qf : ℚ))]) := by
  refine ⟨fun h => ?_, fun h => ?_, fun h => ?_, fun h => ?_⟩
  · simp [SetTargetTempHighLowC, h, SetOutcome.apiError, SetOutcome.requests]
  · simpa [SetTargetTempHighLowC, not_lt.mpr h] using
      setThermostat_requests t c
        [("target_temperature_high_c", JValue.num hc), ("target_temperature_low_c", JValue.num qc)] net hcl
  · simp [SetTargetTempHighLowF, h, SetOutcome.apiError, SetOutcome.requests]
  · simpa [SetTargetTempHighLowF, not_lt.mpr h] using
      setThermostat_requests t c
        [("target_temperature_high_f", JValue.num (hf : ℚ)), ("target_temperature_low_f", JValue.num (qf : ℚ))] net hcl

/-- Claim C9 witness at (high, low) = (65, 75) rejected and (75, 65)
sent, in both units. -/
theorem claim9_witness :
    (SetTargetTempHighLowC tDemo 65 75 netOk200).requests = []
    ∧ (∀ r ∈ (SetTargetTempHighLowC tDemo 75 65 netOk200).requests,
        r.body = [("target_temperature_high_c", JValue.num 75), ("target_temperature_low_c", JValue.num 65)])
    ∧ (SetTargetTempHighLowF tDemo 65 75 netOk200).requests = []
    ∧ ∀ r ∈ (SetTargetTempHighLowF tDemo 75 65 netOk200).requests,
        r.body = [("target_temperature_high_f", JValue.num ((75 : Int) : ℚ)), ("target_temperature_low_f", JValue.num ((65 : Int) : ℚ))] := by
  refine ⟨((claim9_high_low tDemo cDemo netOk200 65 75 65 75 rfl).1 (by norm_num)).2,
          ((claim9_high_low tDemo cDemo netOk200 75 65 75 65 rfl).2.1 (by norm_num)).2,
          ((claim9_high_low tDemo cDemo netOk200 65 75 65 75 rfl).2.2.1 (by norm_num)).2,
          ((claim9_high_low tDemo cDemo netOk200 75 65 75 65 rfl).2.2.2 (by norm_num)).2⟩

/-- Claim C4 counterexample: at begin = now (here also end = begin) the
claim demands an `eta_error` before any network call, but `checkTimes`
compares strictly, so the code issues the PUT and the call succeeds. -/
theorem claim4_counterexample :
    (SetETA sDemo "trip" 0 0 0 netOk200).requests.length = 1
    ∧ (SetETA sDemo "trip" 0 0 0 netOk200).apiError = none := by
  exact ⟨rfl, rfl⟩

/-- Claim C4 as amended: only begin strictly before now, or end
strictly before begin, fails locally with kind `eta_error` and no
request; otherwise exactly one PUT is attempted at the ETA endpoint
whose body holds exactly the three documented fields. -/
theorem claim4_eta_validation (s : Structure) (c : Client) (tripID : String)
    (now tBegin tEnd : Int) (net : Nat → DoResult) (hc : s.client = some c) :
    ((tBegin < now ∨ tEnd < tBegin) →
       (∃ e, (SetETA s tripID now tBegin tEnd net).apiError = some e ∧ e.error = "eta_error")
       ∧ (SetETA s tripID now tBegin tEnd net).requests = [])
    ∧ (now ≤ tBegin → tBegin ≤ tEnd →
       (SetETA s tripID now tBegin tEnd net).requests.map (fun r => r.url) =
         [c.redirectURL ++ "/structures/" ++ s.structureID ++ "/eta.json?auth=" ++ c.token]
       ∧ (SetETA s tripID now tBegin tEnd net).requests.map (fun r => r.body.map Prod.fst) =
         [["trip_id", "estimated_arrival_window_begin", "estimated_arrival_window_end"]]) := by
  constructor
  · intro h
    by_cases hb : tBegin < now
    · constructor
      · refine ⟨{ error := "eta_error",
                  description := "The begin time must be greater than the time now" }, ?_, rfl⟩
        simp [SetETA, checkTimes, hb, SetOutcome.apiError]
      · simp [SetETA, checkTimes, hb, SetOutcome.requests]
    · have he : tEnd < tBegin := h.resolve_left hb
      constructor
      · refine ⟨{ error := "eta_error",
                  description := "The end time must be greater than the begin time" }, ?_, rfl⟩
        simp [SetETA, checkTimes, hb, he, SetOutcome.apiError]
      · simp [SetETA, checkTimes, hb, he, SetOutcome.requests]
  · intro hb he
    have hv : checkTimes now tBegin tEnd = none := by
      simp [checkTimes, not_lt.mpr hb, not_lt.mpr he]
    rw [SetETA_request s c tripID now tBegin tEnd net hc hv]
    exact ⟨rfl, rfl⟩

/-- Claim C4 (amended) witness: begin before now is rejected with no
request; a valid window issues one PUT with the three documented
fields. -/
theorem claim4_witness :
    ((SetETA sDemo "trip" 10 5 20 netOk200).requests = []
      ∧ ∃ e, (SetETA sDemo "trip" 10 5 20 netOk200).apiError = some e ∧ e.error = "eta_error")
    ∧ (SetETA sDemo "trip" 0 5 10 netOk200).requests.map (fun r => r.body.map Prod.fst) =
        [["trip_id", "estimated_arrival_window_begin", "estimated_arrival_window_end"]] := by
  have h1 := (claim4_eta_validation sDemo cDemo "trip" 10 5 20 netOk200 rfl).1 (by norm_num)
  have h2 := (claim4_eta_validation sDemo cDemo "trip" 0 5 10 netOk200 rfl).2 (by norm_num) (by norm_num)
  exact ⟨⟨h1.2, h1.1⟩, h2.2⟩

/-- Claim C1: on a 307 first response to either PUT primitive, the
cached redirect URL becomes the scheme+host of the response's final
request URL, the target URL is rebuilt against it and the PUT is
reissued exactly once (two requests total); a transport failure or a
second 307 on the retry is surfaced as the result with no further
retry; a retried 200 is success (no error) with the cached URL left at
the redirect target, and a subsequent call on the updated client aims
its first request at that URL directly. -/
theorem claim1_redirect_retry
    (c : Client) (t : Thermostat) (s : Structure) (b : List (String × JValue))
    (net : Nat → DoResult) (r1 : Response)
    (ht : t.client = some c) (hs : s.client = some c)
    (h1 : net 0 = DoResult.ok r1) (h307 : r1.statusCode = 307) :
    ((setThermostat t b net).clientAfter =
        some { c with redirectURL := r1.reqScheme ++ "://" ++ r1.reqHost }
      ∧ (setThermostat t b net).requests =
          [putRequest (thermostatURL c t.deviceID) b,
           putRequest (thermostatURL { c with redirectURL := r1.reqScheme ++ "://" ++ r1.reqHost } t.deviceID) b]
      ∧ (∀ m, net 1 = DoResult.fail m →
           (setThermostat t b net).apiError = some { error := "http_error", description := m })
      ∧ (∀ r2, net 1 = DoResult.ok r2 → r2.statusCode = 307 →
           (setThermostat t b net).apiError =
             some { error := "api_error", description := (unmarshalAPIError r2.body).error,
                    status := r2.status, statusCode := 307 })
      ∧ (∀ r2, net 1 = DoResult.ok r2 → r2.statusCode = 200 →
           (setThermostat t b net).apiError = none)
      ∧ (∀ net2 : Nat → DoResult,
           (setThermostat { t with client := some { c with redirectURL := r1.reqScheme ++ "://" ++ r1.reqHost } } b net2).requests.head? =
             some (putRequest (thermostatURL { c with redirectURL := r1.reqScheme ++ "://" ++ r1.reqHost } t.deviceID) b)))
    ∧ ((setStructure s b net).clientAfter =
        some { c with redirectURL := r1.reqScheme ++ "://" ++ r1.reqHost }
      ∧ (setStructure s b net).requests =
          [putRequest (structureURL c s.structureID) b,
           putRequest (structureURL { c with redirectURL := r1.reqScheme ++ "://" ++ r1.reqHost } s.structureID) b]
      ∧ (∀ m, net 1 = DoResult.fail m →
           (setStructure s b net).apiError = some { error := "http_error", description := m })
      ∧ (∀ r2, net 1 = DoResult.ok r2 → r2.statusCode = 307 →
           (setStructure s b net).apiError =
             some { error := "api_error", description := (unmarshalAPIError r2.body).error,
                    status := r2.status, statusCode := 307 })
      ∧ (∀ r2, net 1 = DoResult.ok r2 → r2.statusCode = 200 →
           (setStructure s b net).apiError = none)
      ∧ (∀ net2 : Nat → DoResult,
           (setStructure { s with client := some { c with redirectURL := r1.reqScheme ++ "://" ++ r1.reqHost } } b net2).requests.head? =
             some (putRequest (structureURL { c with redirectURL := r1.reqScheme ++ "://" ++ r1.reqHost } s.structureID) b))) := by
  constructor
  · refine ⟨?_, ?_, ?_, ?_, ?_, ?_⟩
    · simp only [setThermostat, ht, h1]
      cases hn : net 1 <;> simp [h307, SetOutcome.clientAfter]
    · simp only [setThermostat, ht, h1]
      cases hn : net 1 <;> simp [h307, SetOutcome.requests]
    · intro m hm
      simp only [setThermostat, ht, h1]
      simp [h307, hm, SetOutcome.apiError]
    · intro r2 h2 h2307
      simp only [setThermostat, ht, h1]
      simp [h307, h2, SetOutcome.apiError, finishThermostatPut, h2307, generateAPIError]
    · intro r2 h2 h2200
      simp only [setThermostat, ht, h1]
      simp [h307, h2, SetOutcome.apiError, finishThermostatPut, h2200]
    · intro net2
      simp only [setThermostat]
      cases hn : net2 0 with
      | fail m => simp [SetOutcome.requests]
      | ok resp =>
        by_cases h : resp.statusCode = 307
        · cases hm : net2 1 <;> simp [h, SetOutcome.requests]
        · simp [h, SetOutcome.requests]
  · refine ⟨?_, ?_, ?_, ?_, ?_, ?_⟩
    · simp only [setStructure, hs, h1]
      cases hn : net 1 <;> simp [h307, SetOutcome.clientAfter]
    · simp only [setStructure, hs, h1]
      cases hn : net 1 <;> simp [h307, SetOutcome.requests]
    · intro m hm
      simp only [setStructure, hs, h1]
      simp [h307, hm, SetOutcome.apiError]
    · intro r2 h2 h2307
      simp only [setStructure, hs, h1]
      simp [h307, h2, SetOutcome.apiError, finishStructurePut, h2307, generateAPIError]
    · intro r2 h2 h2200
      simp only [setStructure, hs, h1]
      simp [h307, h2, SetOutcome.apiError, finishStructurePut, h2200]
    · intro net2
      simp only [setStructure]
      cases hn : net2 0 with
      | fail m => simp [SetOutcome.requests]
      | ok resp =>
        by_cases h : resp.statusCode = 307
        · cases hm : net2 1 <;> simp [h, SetOutcome.requests]
        · simp [h, SetOutcome.requests]

/-- A 307 redirect response pointing at the firebase host. -/
def resp307 : Response :=
  { statusCode := 307, status := "307 Temporary Redirect", reqScheme := "https",
    reqHost := "firebase.nest.example", body := "" }

/-- A transport oracle answering the first request with the 307 and
the retry with a 200. -/
def net307 : Nat → DoResult := fun n => if n = 0 then DoResult.ok resp307 else DoResult.ok respOk200

/-- Claim C1 witness: a PUT that receives a 307 then a 200 succeeds,
issues exactly two requests, and leaves the cached URL equal to the
redirect target's scheme+host. -/
theorem claim1_witness :
    (setThermostat tDemo [("hvac_mode", JValue.str "cool")] net307).clientAfter =
      some { cDemo with redirectURL := "https://firebase.nest.example" }
    ∧ (setThermostat tDemo [("hvac_mode", JValue.str "cool")] net307).apiError = none
    ∧ (setThermostat tDemo [("hvac_mode", JValue.str "cool")] net307).requests.length = 2
    ∧ (setStructure sDemo [("away", JValue.str "home")] net307).apiError = none := by
  have h := claim1_redirect_retry cDemo tDemo sDemo [("hvac_mode", JValue.str "cool")] net307 resp307
    rfl rfl rfl rfl
  have h2 := claim1_redirect_retry cDemo tDemo sDemo [("away", JValue.str "home")] net307 resp307
    rfl rfl rfl rfl
  refine ⟨h.1.1.trans (by decide), h.1.2.2.2.2.1 respOk200 rfl rfl, ?_, h2.2.2.2.2.2.1 respOk200 rfl rfl⟩
  rw [h.1.2.1]
  rfl

/-- A client with no cached redirect URL yet, as on the very first
collection fetch. -/
def cFresh : Client :=
  { apiURL := "https://developer-api.nest.example", redirectURL := "", token := "tok" }

/-- Claim C5, evaluated at the failing input: on `Structures()` with no
cached redirect URL, a transport failure makes `getStructures`
dereference the nil response (`resp.Request.URL`) before checking the
error — a runtime panic — instead of the `devices_error` the claim
promises. -/
theorem claim5_first_call_transport_crash :
    Structures cFresh (DoResult.fail "dial tcp: connection refused") = StructuresOutcome.crashed := by
  rfl

/-- Claim C6: 200-body decode failures are swallowed: both PUT
primitives return no error on any 200 response regardless of its body,
and `Structures` returns the empty decoded map with no error when its
200 body fails to parse. -/
theorem claim6_decode_swallowed
    (t : Thermostat) (s : Structure) (ct cs c : Client) (b : List (String × JValue))
    (net : Nat → DoResult) (resp : Response)
    (ht : t.client = some ct) (hs : s.client = some cs)
    (h0 : net 0 = DoResult.ok resp) (h200 : resp.statusCode = 200) :
    (setThermostat t b net).apiError = none
    ∧ (setStructure s b net).apiError = none
    ∧ (resp.bodyReadErr = none → parseJson resp.body = none →
        ∃ c2, Structures c (DoResult.ok resp) = StructuresOutcome.result (some []) none c2) := by
  refine ⟨?_, ?_, ?_⟩
  · simp only [setThermostat, ht, h0]
    simp [h200, SetOutcome.apiError, finishThermostatPut]
  · simp only [setStructure, hs, h0]
    simp [h200, SetOutcome.apiError, finishStructurePut]
  · intro hread hparse
    by_cases hurl : c.redirectURL = ""
    · refine ⟨{ c with redirectURL := resp.reqScheme ++ "://" ++ resp.reqHost }, ?_⟩
      simp [Structures, getStructures, hurl, hread, h200, unmarshalStructuresMap, hparse,
        associateClientToStructures]
    · refine ⟨c, ?_⟩
      simp [Structures, getStructures, hurl, hread, h200, unmarshalStructuresMap, hparse,
        associateClientToStructures]

/-- Claim C6 witness: a 200 response whose body is not JSON yields no
error from the thermostat PUT and the empty map with no error from
`Structures`. -/
theorem claim6_witness :
    (setThermostat tDemo [("hvac_mode", JValue.str "cool")] (fun _ => DoResult.ok { statusCode := 200, status := "200 OK", body := "not json" })).apiError = none
    ∧ ∃ c2, Structures cDemo (DoResult.ok { statusCode := 200, status := "200 OK", body := "not json" }) =
        StructuresOutcome.result (some []) none c2 := by
  have h := claim6_decode_swallowed tDemo sDemo cDemo cDemo cDemo [("hvac_mode", JValue.str "cool")]
    (fun _ => DoResult.ok { statusCode := 200, status := "200 OK", body := "not json" })
    { statusCode := 200, status := "200 OK", body := "not json" } rfl rfl rfl rfl
  exact ⟨h.1, h.2.2 rfl rfl⟩

/-! ## Stream claims -/

/-- The watch loop never emits a `failure` call: read errors end it
silently and decode failures are skipped. -/
theorem watchLines_no_failure (c : Client) (lines : List String) (msg : String) :
    CallbackCall.failure msg ∉ watchLines c lines := by
  intro hmem
  rw [watchLines, List.mem_filterMap] at hmem
  obtain ⟨l, -, hl⟩ := hmem
  simp only [watchLineEvent] at hl
  split at hl
  · exact Option.noConfusion hl
  · split at hl
    · simp at hl
    · exact Option.noConfusion hl

/-- The calls one outer-loop iteration delivers, given its connection
outcome. -/
def iterCalls (c : Client) : DoResult → List CallbackCall
  | .fail msg => [.failure msg]
  | .ok resp => watchStructuresStream c resp

/-- The calls delivered by the first `n` outer-loop iterations. -/
def streamCalls (c : Client) (net : Nat → DoResult) : Nat → List CallbackCall
  | 0 => []
  | n + 1 => streamCalls c net n ++ iterCalls c (net n)

/-- With the redirect URL primed, every finite prefix of the outer loop
runs to completion with the client unchanged, accumulating each
iteration's calls. -/
theorem structuresStreamRun_eq (c : Client) (net : Nat → DoResult) (h : c.redirectURL ≠ "") :
    ∀ n, structuresStreamRun net c n = some (c, streamCalls c net n) := by
  intro n
  induction n with
  | zero => rfl
  | succ n ih =>
    rw [structuresStreamRun, ih, streamCalls]
    cases hn : net n with
    | fail msg => simp [streamStructures, getStructures, h, iterCalls]
    | ok resp => simp [streamStructures, getStructures, h, iterCalls]

/-- Claim C2 counterexample: with the redirect URL primed and the
transport failing on both iterations, the second (reconnect) attempt's
failure is also delivered to the callback, refuting "only the very
first connection attempt's failure is ever delivered". -/
theorem claim2_counterexample :
    structuresStreamRun (fun _ => DoResult.fail "dial tcp: connection refused") cDemo 2 =
      some (cDemo, [CallbackCall.failure "dial tcp: connection refused",
                    CallbackCall.failure "dial tcp: connection refused"])
    ∧ structuresStreamRun (fun _ => DoResult.fail "dial tcp: connection refused") cDemo 2 ≠
        some (cDemo, [CallbackCall.failure "dial tcp: connection refused"]) := by
  exact ⟨rfl, by decide⟩

/-- Claim C2 as amended: with the redirect URL primed, the outer loop
never terminates on its own — after any number of iterations it is
still running with the client unchanged, immediately reopening the
stream after each watch-loop return; EVERY failed connection attempt's
failure (not only the first) is delivered to the callback as
`(nil, err)`; and a read error terminates the watch loop silently: no
failure call ever originates from the watch loop. -/
theorem claim2_reconnect_delivery (c : Client) (prime : DoResult) (net : Nat → DoResult)
    (h : (setRedirectURL c prime).redirectURL ≠ "") :
    (∀ n, StructuresStream c prime net n =
       some (setRedirectURL c prime, streamCalls (setRedirectURL c prime) net n))
    ∧ (∀ n msg, net n = DoResult.fail msg →
        streamCalls (setRedirectURL c prime) net (n + 1) =
          streamCalls (setRedirectURL c prime) net n ++ [CallbackCall.failure msg])
    ∧ (∀ lines msg, CallbackCall.failure msg ∉ watchLines (setRedirectURL c prime) lines) := by
  refine ⟨?_, ?_, ?_⟩
  · intro n
    exact structuresStreamRun_eq (setRedirectURL c prime) net h n
  · intro n msg hn
    rw [streamCalls, hn]
    rfl
  · intro lines msg
    exact watchLines_no_failure (setRedirectURL c prime) lines msg

/-- The GET response priming the stream's redirect URL. -/
def primeResp : Response :=
  { statusCode := 200, status := "200 OK", reqScheme := "https",
    reqHost := "host.nest.example", body := "" }

/-- Claim C2 (amended) witness: one loop iteration over a failing
transport runs to completion and delivers that iteration's calls. -/
theorem claim2_witness :
    StructuresStream cFresh (DoResult.ok primeResp) (fun _ => DoResult.fail "refused") 1 =
      some (setRedirectURL cFresh (DoResult.ok primeResp),
            streamCalls (setRedirectURL cFresh (DoResult.ok primeResp))
              (fun _ => DoResult.fail "refused") 1) :=
  (claim2_reconnect_delivery cFresh (DoResult.ok primeResp)
    (fun _ => DoResult.fail "refused") (by decide)).1 1

/-- Claim C3: over a line list of non-data lines around one data line
whose payload decodes to a non-null mapping, the watch loop invokes the
callback exactly once, with the decoded mapping and no error, and every
entry it delivers carries the producing client as its back-reference. -/
theorem claim3_stream_event (c : Client) (pre post : List String) (line : String)
    (m : List (String × Structure))
    (hpre : ∀ l ∈ pre, parseStreamData l = "")
    (hpost : ∀ l ∈ post, parseStreamData l = "")
    (hline : parseStreamData line ≠ "")
    (hm : (unmarshalStructuresEvent (parseStreamData line)).data = some m) :
    watchLines c (pre ++ line :: post) = [CallbackCall.event (associateClientToStructures c m)]
    ∧ ∀ p ∈ associateClientToStructures c m, p.2.client = some c := by
  constructor
  · have h1 : pre.filterMap (watchLineEvent c) = [] := by
      rw [List.filterMap_eq_nil_iff]
      intro l hl
      simp [watchLineEvent, hpre l hl]
    have h2 : post.filterMap (watchLineEvent c) = [] := by
      rw [List.filterMap_eq_nil_iff]
      intro l hl
      simp [watchLineEvent, hpost l hl]
    have h3 : watchLineEvent c line = some (.event (associateClientToStructures c m)) := by
      simp [watchLineEvent, hline, hm]
    rw [watchLines, List.filterMap_append, h1, List.filterMap_cons, h3, h2]
    rfl
  · intro p hp
    simp only [associateClientToStructures, List.mem_map] at hp
    obtain ⟨q, -, rfl⟩ := hp
    rfl

/-- The demo stream: a keep-alive line, one data line with a structures
payload, and an unrelated event line. -/
def streamLinesDemo : List String :=
  [":keepalive\n",
   "data: \x7b\"data\":\x7b\"structure1\":\x7b\"away\":\"home\"\x7d\x7d\x7d\n",
   "event: put\n"]

/-- Claim C3 witness: the demo stream produces exactly one callback
invocation carrying the decoded structure with the client attached. -/
theorem claim3_witness :
    watchLines cDemo streamLinesDemo =
      [CallbackCall.event [("structure1", { structureID := "", away := "home", client := some cDemo })]]
    ∧ ∀ p ∈ associateClientToStructures cDemo
        [("structure1", { structureID := "", away := "home", client := none })],
        p.2.client = some cDemo := by
  have h := claim3_stream_event cDemo [":keepalive\n"] ["event: put\n"]
    "data: \x7b\"data\":\x7b\"structure1\":\x7b\"away\":\"home\"\x7d\x7d\x7d\n"
    [("structure1", { structureID := "", away := "home", client := none })]
    (by decide) (by decide) (by decide) (by decide)
  exact ⟨h.1, h.2⟩

/-- Claim C10: a data-prefixed line whose payload fails to decode as
JSON, or decodes to an event with a null mapping, produces no callback
invocation — the loop silently continues with the remaining lines —
and no error is ever surfaced through the callback. -/
theorem claim10_bad_payload (c : Client) (line : String) (rest : List String)
    (hdata : parseStreamData line ≠ "")
    (hbad : (unmarshalStructuresEvent (parseStreamData line)).data = none) :
    watchLines c (line :: rest) = watchLines c rest
    ∧ ∀ msg, CallbackCall.failure msg ∉ watchLines c (line :: rest) := by
  constructor
  · have h3 : watchLineEvent c line = none := by
      simp [watchLineEvent, hdata, hbad]
    simp only [watchLines, List.filterMap_cons, h3]
  · intro msg
    exact watchLines_no_failure c (line :: rest) msg

/-- Claim C10 witness: a malformed data payload is skipped and the
loop continues with the next line; no failure call is delivered. -/
theorem claim10_witness :
    watchLines cDemo ["data: \x7bnot json\n", "data: \x7b\"data\":null\x7d\n"] =
      watchLines cDemo ["data: \x7b\"data\":null\x7d\n"]
    ∧ CallbackCall.failure "e" ∉
        watchLines cDemo ["data: \x7bnot json\n", "data: \x7b\"data\":null\x7d\n"] := by
  have h := claim10_bad_payload cDemo "data: \x7bnot json\n" ["data: \x7b\"data\":null\x7d\n"]
    (by decide) (by decide)
  exact ⟨h.1, h.2 "e"⟩

end Nest
